import Mathlib

/-!
Verification of the commercial-paper chaincode helper module
(`src/utils/chaincode_ops.js`) against its natural-language specification.

The module is a thin facade over an external ledger client (hfc).  We embed:
  * the `CPChaincode` constructor and its stored state (chain handle,
    chaincode ID, and the single-concurrency task queue it creates);
  * the request objects each facade method builds
    (`createCompany`, `getCompany`, `createPaper`, `ping`, `transferPaper`,
    `getPapers`);
  * the effect trace of each facade method (what it enqueues or submits);
  * the `invoke` and `query` helpers: identity resolution via
    `chain.getMember`, and the bridging of the emitter events
    (`completed` / `submitted` / `error` for invoke, `complete` / `error`
    for query) into caller-callback invocations.

Event emission order is an external input, so runs are parametrised by the
list of events the external emitter fires; the embedding returns the list of
callback invocations the code performs, in order.
-/

/-- Values the external client hands back in events: either a JS string or a
binary/byte payload (a Buffer, modelled as its byte list). -/
inductive JSValue where
  | str (s : String)
  | bytes (b : List Nat)
deriving DecidableEq, Repr

/-- Model of the JS `.toString()` call on a result value: a string is
returned unchanged, a byte buffer is decoded to text. -/
def JSValue.toStr : JSValue → String
  | JSValue.str s => s
  | JSValue.bytes b => String.mk (b.map (fun n => Char.ofNat n))

/-- Model of the hfc chain handle: the only capability the module uses is
`chain.getMember(enrollID, cb)`, which either fails with an error or yields
a member able to submit transactions (the member itself carries no data the
embedding needs, so it is `Unit`). -/
structure Chain where
  getMember : String → Except String Unit

/-- State stored by the `CPChaincode` constructor: the chain handle, the
chaincode ID, and the task queue created by `async.queue(worker, 1)`
(concurrency 1), initially holding no tasks. -/
structure CPChaincode where
  chain : Chain
  chaincodeID : String
  queue : List Unit

/-- Embedding of the `CPChaincode` constructor.  A falsy `chain` is modelled
as `none`; a falsy `chaincodeID` string is the empty string.  The source
throws `new Error(...)` when `!(chain && chaincodeID)`, otherwise it stores
both arguments on the instance and creates the empty task queue. -/
def mkCPChaincode (chain : Option Chain) (chaincodeID : String) :
    Except String CPChaincode :=
  match chain with
  | none =>
      Except.error "Cannot create chaincode helper without both a chain object and the chaincode ID!"
  | some c =>
      if chaincodeID = "" then
        Except.error "Cannot create chaincode helper without both a chain object and the chaincode ID!"
      else
        Except.ok { chain := c, chaincodeID := chaincodeID, queue := [] }

/-- JS values that the paper objects passed to `createPaper` and
`transferPaper` range over, with the shapes `JSON.stringify` handles. -/
inductive Json where
  | null
  | bool (b : Bool)
  | num (n : Int)
  | str (s : String)
  | arr (elems : List Json)
  | obj (fields : List (String × Json))

/-- Escape of one character inside a JSON string literal (backslash, double
quote and newline, the cases relevant to the model). -/
def jsonEscapeChar (c : Char) : String :=
  if c.toNat = 92 then "\\\\"
  else if c.toNat = 34 then "\\\""
  else if c.toNat = 10 then "\\n"
  else String.singleton c

/-- Escape of a whole JSON string literal body. -/
def jsonEscape (s : String) : String :=
  String.join (s.toList.map jsonEscapeChar)

mutual

/-- Model of `JSON.stringify` on the supported value shapes. -/
def Json.stringify : Json → String
  | Json.null => "null"
  | Json.bool b => if b then "true" else "false"
  | Json.num n => toString n
  | Json.str s => "\"" ++ jsonEscape s ++ "\""
  | Json.arr elems => "[" ++ stringifyElems elems ++ "]"
  | Json.obj fields => "\x7b" ++ stringifyFields fields ++ "\x7d"

/-- Comma-separated encoding of array elements. -/
def stringifyElems : List Json → String
  | [] => ""
  | [j] => Json.stringify j
  | j :: rest => Json.stringify j ++ "," ++ stringifyElems rest

/-- Comma-separated encoding of object fields. -/
def stringifyFields : List (String × Json) → String
  | [] => ""
  | [(k, v)] => "\"" ++ jsonEscape k ++ "\":" ++ Json.stringify v
  | (k, v) :: rest =>
      "\"" ++ jsonEscape k ++ "\":" ++ Json.stringify v ++ "," ++ stringifyFields rest

end

/-- Request object handed to the external client: the fields
`chaincodeID / fcn / args / attrs` (`attrs` is absent from every request
except the one built by `ping`). -/
structure Request where
  chaincodeID : String
  fcn : String
  args : List String
  attrs : Option (List String)
deriving DecidableEq, Repr

/-- Request built by `createCompany(enrollID, cb)`. -/
def CPChaincode.createCompanyRequest (self : CPChaincode) (enrollID : String) : Request :=
  { chaincodeID := self.chaincodeID, fcn := "createAccount", args := [enrollID], attrs := none }

/-- Request built by `getCompany(enrollID, company, cb)`. -/
def CPChaincode.getCompanyRequest (self : CPChaincode) (company : String) : Request :=
  { chaincodeID := self.chaincodeID, fcn := "GetCompany", args := [company], attrs := none }

/-- Request built by `createPaper(enrollID, paper, cb)`: the paper object is
serialized by one `JSON.stringify` call and placed as the single argument. -/
def CPChaincode.createPaperRequest (self : CPChaincode) (paper : Json) : Request :=
  { chaincodeID := self.chaincodeID, fcn := "issueCommercialPaper",
    args := [Json.stringify paper], attrs := none }

/-- Hardcoded chaincode ID literal inside `ping`. -/
def pingChaincodeID : String :=
  "5e3be7bd2c42bd0c8d72aaf3d41aaaae382fba4b8c6f6c0ba993df8322d956ca6e20c2ef67cd1e042a83d4725c3b23835ee65243c8d50a13a74679ed9afb8fdb"

/-- Request built by `ping(enrollID, cb)`: every field is a literal in the
source, independent of the instance state and of `enrollID`. -/
def CPChaincode.pingRequest (_self : CPChaincode) : Request :=
  { chaincodeID := pingChaincodeID, fcn := "ping", args := ["string"],
    attrs := some ["username", "role"] }

/-- Request built by `transferPaper(enrollID, paper, cb)`: the paper object
is serialized by one `JSON.stringify` call and placed as the single
argument. -/
def CPChaincode.transferPaperRequest (self : CPChaincode) (paper : Json) : Request :=
  { chaincodeID := self.chaincodeID, fcn := "transferPaper",
    args := [Json.stringify paper], attrs := none }

/-- Request built by `getPapers(enrollID, cb)`. -/
def CPChaincode.getPapersRequest (self : CPChaincode) (enrollID : String) : Request :=
  { chaincodeID := self.chaincodeID, fcn := "GetAllCPs", args := [enrollID], attrs := none }

/-- Observable actions a facade method can perform on its instance: push a
task on `this.queue`, or call the `invoke` / `query` helper directly with a
request. -/
inductive FacadeAction where
  | enqueue
  | submitInvoke (r : Request)
  | submitQuery (r : Request)
deriving DecidableEq, Repr

/-- Discriminator for the queue-push action. -/
def FacadeAction.isEnqueue : FacadeAction → Bool
  | FacadeAction.enqueue => true
  | _ => false

/-- Effect trace of `createCompany`: the source builds the request and calls
the `invoke` helper directly; `this.queue` is never touched. -/
def CPChaincode.createCompanyTrace (self : CPChaincode) (enrollID : String) : List FacadeAction :=
  [FacadeAction.submitInvoke (self.createCompanyRequest enrollID)]

/-- Effect trace of `getCompany`: a direct call to the `query` helper. -/
def CPChaincode.getCompanyTrace (self : CPChaincode) (company : String) : List FacadeAction :=
  [FacadeAction.submitQuery (self.getCompanyRequest company)]

/-- Effect trace of `createPaper`: a direct call to the `invoke` helper. -/
def CPChaincode.createPaperTrace (self : CPChaincode) (paper : Json) : List FacadeAction :=
  [FacadeAction.submitInvoke (self.createPaperRequest paper)]

/-- Effect trace of `ping`: a direct call to the `invoke` helper. -/
def CPChaincode.pingTrace (self : CPChaincode) (_enrollID : String) : List FacadeAction :=
  [FacadeAction.submitInvoke self.pingRequest]

/-- Effect trace of `transferPaper`: a direct call to the `invoke` helper. -/
def CPChaincode.transferPaperTrace (self : CPChaincode) (paper : Json) : List FacadeAction :=
  [FacadeAction.submitInvoke (self.transferPaperRequest paper)]

/-- Effect trace of `getPapers`: a direct call to the `query` helper. -/
def CPChaincode.getPapersTrace (self : CPChaincode) (enrollID : String) : List FacadeAction :=
  [FacadeAction.submitQuery (self.getPapersRequest enrollID)]

/-- Events the invoke emitter (`usr.invoke(requestBody)`) can fire. -/
inductive InvokeEvent where
  | completed (results : JSValue)
  | submitted (results : JSValue)
  | error (err : String)
deriving DecidableEq, Repr

/-- Payload of the query `complete` event: the external client wraps the
query outcome one level deeper, in a `.result` field. -/
structure QueryPayload where
  result : JSValue
deriving DecidableEq, Repr

/-- Events the query emitter (`usr.query(requestBody)`) can fire. -/
inductive QueryEvent where
  | complete (payload : QueryPayload)
  | error (err : String)
deriving DecidableEq, Repr

/-- One invocation of a node-style callback: `err e` models `cb(e)` and
`ok v` models `cb(null, v)`. -/
inductive CallbackCall where
  | err (e : String)
  | ok (v : JSValue)
deriving DecidableEq, Repr

/-- Discriminator: the invocation delivered a success value that is a
string. -/
def CallbackCall.isStringResult : CallbackCall → Bool
  | CallbackCall.ok (JSValue.str _) => true
  | _ => false

/-- Handler wiring of the `invoke` helper (lines 224-238): `completed` and
`submitted` both call `cb(null, results)`, `error` calls `cb(err)`. -/
def invokeHandle : InvokeEvent → CallbackCall
  | InvokeEvent.completed r => CallbackCall.ok r
  | InvokeEvent.submitted r => CallbackCall.ok r
  | InvokeEvent.error e => CallbackCall.err e

/-- Handler wiring of the `query` helper (lines 264-271): `complete` calls
`cb(null, results.result)` (unwrapping the nested field), `error` calls
`cb(err)`. -/
def queryHandle : QueryEvent → CallbackCall
  | QueryEvent.complete p => CallbackCall.ok p.result
  | QueryEvent.error e => CallbackCall.err e

/-- Callback invocations performed by the `invoke` helper, given the
`getMember` outcome and the events the emitter subsequently fires.  On a
`getMember` error the callback is invoked once with the error and no emitter
is created; on success every fired event invokes the callback through its
handler, in firing order (the source installs no guard against a second
terminal event). -/
def invokeCalls (member : Except String Unit) (events : List InvokeEvent) :
    List CallbackCall :=
  match member with
  | Except.error e => [CallbackCall.err e]
  | Except.ok _ => events.map invokeHandle

/-- Callback invocations performed by the `query` helper, analogous to
`invokeCalls`. -/
def queryCalls (member : Except String Unit) (events : List QueryEvent) :
    List CallbackCall :=
  match member with
  | Except.error e => [CallbackCall.err e]
  | Except.ok _ => events.map queryHandle

/-- Outcome of running a helper when the caller-supplied `cb` may be
missing: either a normal run with its list of callback invocations, or a
fault (`TypeError`) from calling a falsy `cb` as a function. -/
inductive RunOutcome where
  | normal (calls : List CallbackCall)
  | typeError
deriving DecidableEq, Repr

/-- Run of the `invoke` helper with an optional callback.  The source guards
only the `getMember` error path with `if (cb)`; in the event handlers `cb`
is called unconditionally, so a missing `cb` faults as soon as the first
event fires. -/
def invokeRunOpt (member : Except String Unit) (cbPresent : Bool)
    (events : List InvokeEvent) : RunOutcome :=
  match member with
  | Except.error e =>
      RunOutcome.normal (if cbPresent then [CallbackCall.err e] else [])
  | Except.ok _ =>
      if cbPresent then RunOutcome.normal (events.map invokeHandle)
      else
        match events with
        | [] => RunOutcome.normal []
        | _ :: _ => RunOutcome.typeError

/-- Run of the `query` helper with an optional callback, with the same
guard shape as `invokeRunOpt`. -/
def queryRunOpt (member : Except String Unit) (cbPresent : Bool)
    (events : List QueryEvent) : RunOutcome :=
  match member with
  | Except.error e =>
      RunOutcome.normal (if cbPresent then [CallbackCall.err e] else [])
  | Except.ok _ =>
      if cbPresent then RunOutcome.normal (events.map queryHandle)
      else
        match events with
        | [] => RunOutcome.normal []
        | _ :: _ => RunOutcome.typeError

/-- End-to-end run of `createCompany`: the helper resolves the member via
`this.chain.getMember(enrollID)`, then the facade callback forwards an error
unchanged and passes a success result through unchanged (`cb(null, result)`,
no conversion). -/
def CPChaincode.createCompanyRun (self : CPChaincode) (enrollID : String)
    (events : List InvokeEvent) : List CallbackCall :=
  (invokeCalls (self.chain.getMember enrollID) events).map
    (fun c =>
      match c with
      | CallbackCall.err e => CallbackCall.err e
      | CallbackCall.ok r => CallbackCall.ok r)

/-- End-to-end run of `createPaper`: same facade callback shape as
`createCompany` (error forwarded, success result passed through). -/
def CPChaincode.createPaperRun (self : CPChaincode) (enrollID : String)
    (_paper : Json) (events : List InvokeEvent) : List CallbackCall :=
  (invokeCalls (self.chain.getMember enrollID) events).map
    (fun c =>
      match c with
      | CallbackCall.err e => CallbackCall.err e
      | CallbackCall.ok r => CallbackCall.ok r)

/-- End-to-end run of `transferPaper`: same facade callback shape as
`createCompany` (error forwarded, success result passed through). -/
def CPChaincode.transferPaperRun (self : CPChaincode) (enrollID : String)
    (_paper : Json) (events : List InvokeEvent) : List CallbackCall :=
  (invokeCalls (self.chain.getMember enrollID) events).map
    (fun c =>
      match c with
      | CallbackCall.err e => CallbackCall.err e
      | CallbackCall.ok r => CallbackCall.ok r)

/-- End-to-end run of `ping`: same facade callback shape as `createCompany`
(error forwarded, success result passed through). -/
def CPChaincode.pingRun (self : CPChaincode) (enrollID : String)
    (events : List InvokeEvent) : List CallbackCall :=
  (invokeCalls (self.chain.getMember enrollID) events).map
    (fun c =>
      match c with
      | CallbackCall.err e => CallbackCall.err e
      | CallbackCall.ok r => CallbackCall.ok r)

/-- End-to-end run of `getCompany`: the facade callback forwards an error
unchanged and delivers `company.toString()` on success. -/
def CPChaincode.getCompanyRun (self : CPChaincode) (enrollID : String)
    (_company : String) (events : List QueryEvent) : List CallbackCall :=
  (queryCalls (self.chain.getMember enrollID) events).map
    (fun c =>
      match c with
      | CallbackCall.err e => CallbackCall.err e
      | CallbackCall.ok r => CallbackCall.ok (JSValue.str r.toStr))

/-- End-to-end run of `getPapers`: the facade callback forwards an error
unchanged and delivers `papers.toString()` on success. -/
def CPChaincode.getPapersRun (self : CPChaincode) (enrollID : String)
    (events : List QueryEvent) : List CallbackCall :=
  (queryCalls (self.chain.getMember enrollID) events).map
    (fun c =>
      match c with
      | CallbackCall.err e => CallbackCall.err e
      | CallbackCall.ok r => CallbackCall.ok (JSValue.str r.toStr))

/-- Concrete chain handle whose `getMember` always succeeds, for evaluating
the embedding on closed inputs. -/
def testChain : Chain :=
  { getMember := fun _ => Except.ok () }

/-- Concrete facade instance over `testChain`. -/
def testCP : CPChaincode :=
  { chain := testChain, chaincodeID := "cc1", queue := [] }

/-- Claim C1 counterexample: `createCompany` on a concrete instance performs
a direct submission to the invoke helper and never pushes anything on the
instance queue, refuting the claim that every facade operation is enqueued
on the single-concurrency queue before executing. -/
theorem c1_counterexample :
    CPChaincode.createCompanyTrace testCP "alice" =
      [FacadeAction.submitInvoke (CPChaincode.createCompanyRequest testCP "alice")] ∧
    FacadeAction.enqueue ∉ CPChaincode.createCompanyTrace testCP "alice" := by
  constructor
  · rfl
  · decide

/-- Claim C1 (amended): the constructor creates the single-concurrency queue
on the instance, but none of the six facade operations routes through it —
each builds its request and calls the `invoke` / `query` helper directly, so
its trace is one direct submission and contains no enqueue action. -/
theorem c1_direct_submission (self : CPChaincode) (enrollID company : String)
    (paper : Json) :
    self.createCompanyTrace enrollID =
      [FacadeAction.submitInvoke (self.createCompanyRequest enrollID)] ∧
    self.getCompanyTrace company =
      [FacadeAction.submitQuery (self.getCompanyRequest company)] ∧
    self.createPaperTrace paper =
      [FacadeAction.submitInvoke (self.createPaperRequest paper)] ∧
    self.pingTrace enrollID = [FacadeAction.submitInvoke self.pingRequest] ∧
    self.transferPaperTrace paper =
      [FacadeAction.submitInvoke (self.transferPaperRequest paper)] ∧
    self.getPapersTrace enrollID =
      [FacadeAction.submitQuery (self.getPapersRequest enrollID)] ∧
    (self.createCompanyTrace enrollID).all (fun a => !a.isEnqueue) = true ∧
    (self.getCompanyTrace company).all (fun a => !a.isEnqueue) = true ∧
    (self.createPaperTrace paper).all (fun a => !a.isEnqueue) = true ∧
    (self.pingTrace enrollID).all (fun a => !a.isEnqueue) = true ∧
    (self.transferPaperTrace paper).all (fun a => !a.isEnqueue) = true ∧
    (self.getPapersTrace enrollID).all (fun a => !a.isEnqueue) = true := by
  refine ⟨rfl, rfl, rfl, rfl, rfl, rfl, rfl, rfl, rfl, rfl, rfl, rfl⟩

/-- Claim C2 counterexample: when the invoke emitter fires `error` and then
`completed`, the code delivers the error and then also delivers a success
call — the callback fires twice and the second event is not ignored. -/
theorem c2_counterexample :
    invokeCalls (Except.ok ())
        [InvokeEvent.error "boom", InvokeEvent.completed (JSValue.str "done")] =
      [CallbackCall.err "boom", CallbackCall.ok (JSValue.str "done")] ∧
    (invokeCalls (Except.ok ())
        [InvokeEvent.error "boom", InvokeEvent.completed (JSValue.str "done")]).length = 2 := by
  exact ⟨rfl, rfl⟩

/-- Claim C2 (amended): the invoke helper installs no at-most-once guard;
every fired terminal event invokes the callback once, in firing order, so
on `error` then `completed` the error is delivered first and the completed
event still produces a second, success invocation. -/
theorem c2_every_event_delivered (e : String) (r : JSValue)
    (rest : List InvokeEvent) (events : List InvokeEvent) :
    invokeCalls (Except.ok ())
        (InvokeEvent.error e :: InvokeEvent.completed r :: rest) =
      CallbackCall.err e :: CallbackCall.ok r :: rest.map invokeHandle ∧
    (invokeCalls (Except.ok ()) events).length = events.length := by
  refine ⟨rfl, ?_⟩
  simp [invokeCalls]

/-- Claim C3 counterexample: a `completed` invoke event carrying a byte
payload is delivered by `createCompany` to the caller unchanged, as bytes,
not converted to a string. -/
theorem c3_counterexample :
    CPChaincode.createCompanyRun testCP "alice"
        [InvokeEvent.completed (JSValue.bytes [104, 105])] =
      [CallbackCall.ok (JSValue.bytes [104, 105])] ∧
    (CallbackCall.ok (JSValue.bytes [104, 105])).isStringResult = false := by
  exact ⟨rfl, rfl⟩

/-- Claim C3 (amended): only the query operations convert their result to
text — `getCompany` and `getPapers` deliver `result.toString()` as a string,
while the invoke operations (`createCompany`, `createPaper`,
`transferPaper`, `ping`) pass the client result through unchanged, so their
success value is a string only when the client supplied one. -/
theorem c3_stringify_split (self : CPChaincode) (enrollID company : String)
    (v : JSValue) (paper : Json)
    (h : self.chain.getMember enrollID = Except.ok ()) :
    self.getCompanyRun enrollID company [QueryEvent.complete ⟨v⟩] =
      [CallbackCall.ok (JSValue.str v.toStr)] ∧
    self.getPapersRun enrollID [QueryEvent.complete ⟨v⟩] =
      [CallbackCall.ok (JSValue.str v.toStr)] ∧
    self.createCompanyRun enrollID [InvokeEvent.completed v] = [CallbackCall.ok v] ∧
    self.createPaperRun enrollID paper [InvokeEvent.completed v] = [CallbackCall.ok v] ∧
    self.transferPaperRun enrollID paper [InvokeEvent.completed v] = [CallbackCall.ok v] ∧
    self.pingRun enrollID [InvokeEvent.completed v] = [CallbackCall.ok v] := by
  refine ⟨?_, ?_, ?_, ?_, ?_, ?_⟩ <;>
    simp [CPChaincode.getCompanyRun, CPChaincode.getPapersRun,
      CPChaincode.createCompanyRun, CPChaincode.createPaperRun,
      CPChaincode.transferPaperRun, CPChaincode.pingRun,
      invokeCalls, queryCalls, invokeHandle, queryHandle, h]

/-- Claim C3 witness: the amended statement evaluated on the concrete test
instance, where `getMember` succeeds. -/
theorem c3_stringify_split_witness :
    CPChaincode.getCompanyRun testCP "alice" "Acme"
        [QueryEvent.complete ⟨JSValue.str "hi"⟩] =
      [CallbackCall.ok (JSValue.str "hi")] ∧
    CPChaincode.createCompanyRun testCP "alice"
        [InvokeEvent.completed (JSValue.str "hi")] =
      [CallbackCall.ok (JSValue.str "hi")] := by
  have h := c3_stringify_split testCP "alice" "Acme" (JSValue.str "hi") Json.null rfl
  exact ⟨h.1, h.2.2.1⟩

/-- Claim C4: the first observed terminal event resolves the call — the
first callback invocation of an invoke run matches the first fired event,
with `completed` and `submitted` both delivered as success
(`cb(null, results)`) and `error` delivered as failure (`cb(err)`). -/
theorem c4_first_event (r : JSValue) (e : String) (rest : List InvokeEvent) :
    (invokeCalls (Except.ok ()) (InvokeEvent.completed r :: rest)).head? =
      some (CallbackCall.ok r) ∧
    (invokeCalls (Except.ok ()) (InvokeEvent.submitted r :: rest)).head? =
      some (CallbackCall.ok r) ∧
    (invokeCalls (Except.ok ()) (InvokeEvent.error e :: rest)).head? =
      some (CallbackCall.err e) ∧
    invokeHandle (InvokeEvent.completed r) = CallbackCall.ok r ∧
    invokeHandle (InvokeEvent.submitted r) = CallbackCall.ok r ∧
    invokeHandle (InvokeEvent.error e) = CallbackCall.err e := by
  refine ⟨rfl, rfl, rfl, rfl, rfl, rfl⟩

/-- Claim C5: construction succeeds exactly when both the chain handle and
the chaincode ID are truthy; on success both are stored on the instance
(together with the fresh queue); and no other input validation exists —
every facade request builder is total and passes its inputs through
unchanged into the request arguments. -/
theorem c5_constructor_contract :
    (∀ (chain : Option Chain) (chaincodeID : String),
        (∃ cp, mkCPChaincode chain chaincodeID = Except.ok cp) ↔
          (chain ≠ none ∧ chaincodeID ≠ "")) ∧
    (∀ (ch : Chain) (chaincodeID : String), chaincodeID ≠ "" →
        mkCPChaincode (some ch) chaincodeID =
          Except.ok { chain := ch, chaincodeID := chaincodeID, queue := [] }) ∧
    (∀ (self : CPChaincode) (enrollID company : String) (paper : Json),
        (self.createCompanyRequest enrollID).args = [enrollID] ∧
        (self.getCompanyRequest company).args = [company] ∧
        (self.createPaperRequest paper).args = [Json.stringify paper] ∧
        (self.transferPaperRequest paper).args = [Json.stringify paper] ∧
        (self.getPapersRequest enrollID).args = [enrollID] ∧
        self.pingRequest.args = ["string"]) := by
  refine ⟨?_, ?_, ?_⟩
  · intro chain chaincodeID
    cases chain with
    | none => simp [mkCPChaincode]
    | some c =>
        by_cases h : chaincodeID = ""
        · subst h
          simp [mkCPChaincode]
        · simp [mkCPChaincode, h]
  · intro ch chaincodeID h
    simp [mkCPChaincode, h]
  · intro self enrollID company paper
    exact ⟨rfl, rfl, rfl, rfl, rfl, rfl⟩

/-- Claim C5 witness: constructing over the concrete test chain with a
nonempty chaincode ID succeeds and stores both arguments. -/
theorem c5_constructor_contract_witness :
    mkCPChaincode (some testChain) "cc1" =
      Except.ok { chain := testChain, chaincodeID := "cc1", queue := [] } :=
  c5_constructor_contract.2.1 testChain "cc1" (by decide)

/-- Claim C6: regardless of the instance and of `enrollID`, `ping` builds a
request targeting the fixed hardcoded chaincode ID, with function `ping`,
argument list `[string]` and attributes `[username, role]`. -/
theorem c6_ping_request (self : CPChaincode) (enrollID : String) :
    self.pingRequest =
      { chaincodeID := pingChaincodeID, fcn := "ping", args := ["string"],
        attrs := some ["username", "role"] } ∧
    self.pingTrace enrollID =
      [FacadeAction.submitInvoke
        { chaincodeID := pingChaincodeID, fcn := "ping", args := ["string"],
          attrs := some ["username", "role"] }] ∧
    pingChaincodeID =
      "5e3be7bd2c42bd0c8d72aaf3d41aaaae382fba4b8c6f6c0ba993df8322d956ca6e20c2ef67cd1e042a83d4725c3b23835ee65243c8d50a13a74679ed9afb8fdb" := by
  refine ⟨rfl, rfl, rfl⟩

/-- Claim C7: `createCompany(enrollID)` builds a request with function
`createAccount`, argument list exactly `[enrollID]`, and the chaincode ID
the constructor stored on the instance. -/
theorem c7_createCompany_request (self : CPChaincode) (enrollID : String) :
    self.createCompanyRequest enrollID =
      { chaincodeID := self.chaincodeID, fcn := "createAccount",
        args := [enrollID], attrs := none } := by
  rfl

/-- Claim C8: `transferPaper` and `createPaper` each place the single JSON
serialization of the paper object as the sole element of the request
arguments, with function names `transferPaper` and `issueCommercialPaper`
respectively. -/
theorem c8_paper_serialization (self : CPChaincode) (paper : Json) :
    self.transferPaperRequest paper =
      { chaincodeID := self.chaincodeID, fcn := "transferPaper",
        args := [Json.stringify paper], attrs := none } ∧
    self.createPaperRequest paper =
      { chaincodeID := self.chaincodeID, fcn := "issueCommercialPaper",
        args := [Json.stringify paper], attrs := none } ∧
    (self.transferPaperRequest paper).args.length = 1 ∧
    (self.createPaperRequest paper).args.length = 1 := by
  refine ⟨rfl, rfl, rfl, rfl⟩

/-- Claim C9: on the `complete` event the query helper unwraps the nested
`.result` field of the payload, and the facade (`getCompany`, `getPapers`)
then delivers the stringified value to the caller; on the `error` event the
caller receives the error. -/
theorem c9_query_unwrap (self : CPChaincode) (enrollID company : String)
    (p : QueryPayload) (e : String)
    (h : self.chain.getMember enrollID = Except.ok ()) :
    queryHandle (QueryEvent.complete p) = CallbackCall.ok p.result ∧
    queryHandle (QueryEvent.error e) = CallbackCall.err e ∧
    self.getCompanyRun enrollID company [QueryEvent.complete p] =
      [CallbackCall.ok (JSValue.str p.result.toStr)] ∧
    self.getPapersRun enrollID [QueryEvent.complete p] =
      [CallbackCall.ok (JSValue.str p.result.toStr)] ∧
    self.getCompanyRun enrollID company [QueryEvent.error e] = [CallbackCall.err e] ∧
    self.getPapersRun enrollID [QueryEvent.error e] = [CallbackCall.err e] := by
  refine ⟨rfl, rfl, ?_, ?_, ?_, ?_⟩ <;>
    simp [CPChaincode.getCompanyRun, CPChaincode.getPapersRun,
      queryCalls, queryHandle, h]

/-- Claim C9 witness: the query unwrap-and-stringify behaviour evaluated on
the concrete test instance, where `getMember` succeeds. -/
theorem c9_query_unwrap_witness :
    CPChaincode.getCompanyRun testCP "alice" "Acme"
        [QueryEvent.complete ⟨JSValue.bytes [104, 105]⟩] =
      [CallbackCall.ok (JSValue.str "hi")] ∧
    CPChaincode.getPapersRun testCP "alice" [QueryEvent.error "oops"] =
      [CallbackCall.err "oops"] := by
  have h := c9_query_unwrap testCP "alice" "Acme" ⟨JSValue.bytes [104, 105]⟩ "oops" rfl
  exact ⟨h.2.2.1, h.2.2.2.2.2⟩

/-- Claim C10: both helpers guard a missing callback only on the
identity-resolution failure path — a `getMember` error with a falsy `cb`
invokes nothing and faults nothing — while after successful resolution
every terminal event calls `cb` unconditionally, so a falsy `cb` faults
with a type error at the first event; with a callback present, a
`getMember` error is delivered once and every event is delivered through
its handler. -/
theorem c10_cb_guard (e : String) (events : List InvokeEvent)
    (qevents : List QueryEvent) (ev : InvokeEvent) (qev : QueryEvent)
    (rest : List InvokeEvent) (qrest : List QueryEvent) :
    invokeRunOpt (Except.error e) false events = RunOutcome.normal [] ∧
    queryRunOpt (Except.error e) false qevents = RunOutcome.normal [] ∧
    invokeRunOpt (Except.error e) true events =
      RunOutcome.normal [CallbackCall.err e] ∧
    queryRunOpt (Except.error e) true qevents =
      RunOutcome.normal [CallbackCall.err e] ∧
    invokeRunOpt (Except.ok ()) false (ev :: rest) = RunOutcome.typeError ∧
    queryRunOpt (Except.ok ()) false (qev :: qrest) = RunOutcome.typeError ∧
    invokeRunOpt (Except.ok ()) true events =
      RunOutcome.normal (events.map invokeHandle) ∧
    queryRunOpt (Except.ok ()) true qevents =
      RunOutcome.normal (qevents.map queryHandle) := by
  refine ⟨rfl, rfl, rfl, rfl, rfl, rfl, rfl, rfl⟩
